import Mathlib

/-!
User AT commands of the soil-moisture node (`user_at.cpp`).

A shallow embedding of `src/ArduinoIDE/LPWAN-Soil-Moisture-Solution/user_at.cpp`:
the six handlers `at_exec_dry`, `at_set_dry`, `at_query_dry`, `at_exec_wet`,
`at_set_wet`, `at_query_wet`, the `AT_PRINTF` fan-out and the command table
`g_user_at_cmd_list` with its published count `g_user_at_cmd_num`.

Handlers are state transformers on a `World` (calibration store, connection flag,
and the text written so far to the two output channels).  A C string is the list of
its characters up to the terminating NUL.
-/

namespace UserAt

/-! ## C library: `strtol` and `printf` -/

/-- Largest `long` on the targets of this firmware (32-bit `long`). -/
def LONG_MAX : Int := 2147483647

/-- Smallest `long` on the targets of this firmware (32-bit `long`). -/
def LONG_MIN : Int := -2147483648

/-- White space of the C locale, as tested by `isspace`: space, `\t`, `\n`, `\v`, `\f`, `\r`. -/
def isspace (c : Char) : Bool :=
  c.toNat = 32 || (9 ≤ c.toNat && c.toNat ≤ 13)

/-- Value of a character as a digit in `strtol`: `0`-`9`, then letters of either
case for 10..35; `none` for any other character. -/
def digitValue (c : Char) : Option Nat :=
  if 48 ≤ c.toNat ∧ c.toNat ≤ 57 then some (c.toNat - 48)
  else if 65 ≤ c.toNat ∧ c.toNat ≤ 90 then some (c.toNat - 65 + 10)
  else if 97 ≤ c.toNat ∧ c.toNat ≤ 122 then some (c.toNat - 97 + 10)
  else none

/-- The digit loop of `strtol`: consume characters while they are digits below `base`,
accumulating the value; stop at the first other character or at the end of the string. -/
def accumulate (base : Nat) : Nat → List Char → Nat
  | acc, [] => acc
  | acc, c :: cs =>
    match digitValue c with
    | some d => if d < base then accumulate base (acc * base + d) cs else acc
    | none => acc

/-- Does the string start with `0x` or `0X`? -/
def startsWith0x (s : List Char) : Bool :=
  s.head? = some '0' && (s.tail.head? = some 'x' || s.tail.head? = some 'X')

/-- The C library function `strtol(nptr, NULL, base)` with a 32-bit `long`: skip leading
white space, take an optional sign, for base 0 or 16 skip a `0x`/`0X` prefix, for base 0
pick base 16, 8 or 10 from the prefix, read the longest run of digits of that base,
and return the value, saturated to `LONG_MIN`/`LONG_MAX`; 0 when no digit is read. -/
def strtol (nptr : List Char) (base : Nat) : Int :=
  let s := nptr.dropWhile isspace
  let neg : Bool := s.head? = some '-'
  let s := if s.head? = some '-' ∨ s.head? = some '+' then s.tail else s
  let hex : Bool := (base = 0 ∨ base = 16) ∧ startsWith0x s = true
  let s := if hex then s.drop 2 else s
  let base := if hex then 16 else if base = 0 then (if s.head? = some '0' then 8 else 10) else base
  let acc : Int := accumulate base 0 s
  if neg then max (-acc) LONG_MIN else min acc LONG_MAX

/-- The C library test `isxdigit`: `0`-`9`, `A`-`F`, `a`-`f`. -/
def isxdigit (c : Char) : Bool :=
  (48 ≤ c.toNat && c.toNat ≤ 57) || (65 ≤ c.toNat && c.toNat ≤ 70) ||
    (97 ≤ c.toNat && c.toNat ≤ 102)

/-- Octal digits `0`-`7`. -/
def isodigit (c : Char) : Bool :=
  48 ≤ c.toNat && c.toNat ≤ 55

/-- The number a digit character of a C literal stands for: its place among
`0123456789abcdef`, letters taken without regard to case. -/
def digitDenotes (c : Char) : Nat :=
  "0123456789abcdef".toList.indexOf c.toLower

/-- The number a numeral stands for in the given base, its digits written most
significant first. -/
def numeralValue (base : Nat) (ds : List Char) : Nat :=
  Nat.ofDigits base (ds.reverse.map digitDenotes)

/-- The argument holds no integer for `strtol` with base 0: after the leading white
space and an optional sign, the string ends or goes on with a character that is not
one of `0`-`9`. -/
def noInteger (str : List Char) : Bool :=
  let s := str.dropWhile isspace
  let s := if s.head? = some '-' ∨ s.head? = some '+' then s.tail else s
  match s.head? with
  | none => true
  | some c => !(48 ≤ c.toNat && c.toNat ≤ 57)

/-- Text produced by the conversion `%d` for an integer argument. -/
def fmt_d (v : Int) : List Char := (toString v).toList

/-- The formatting of `printf`, for the format strings of this file: every `%d` is
replaced by the decimal text of the next argument, other characters are copied. -/
def vformat : List Char → List Int → List Char
  | [], _ => []
  | [c], _ => [c]
  | c0 :: c1 :: rest, args =>
    if c0 = '%' ∧ c1 = 'd' then
      match args with
      | a :: as => fmt_d a ++ vformat rest as
      | [] => vformat rest []
    else c0 :: vformat (c1 :: rest) args

/-- The text written by `printf(fmt, args...)`. -/
def sprintf (fmt : String) (args : List Int) : String :=
  String.mk (vformat fmt.toList args)

/-! ## External collaborators declared in `app.h` -/

/-- State of the calibration subsystem: the stored dry and wet calibration values. -/
structure Calib where
  dry : Int
  wet : Int
deriving DecidableEq, Repr

/-- Modelled from the spec: `get_calib` is declared in `app.h` and defined outside this
file; per the collaborator interface `get_calibration(is_dry: bool) -> integer` it reads
the current calibration value of the dry (`true`) or wet (`false`) channel. -/
def get_calib (is_dry : Bool) (c : Calib) : Int :=
  if is_dry then c.dry else c.wet

/-- Modelled from the spec: `set_calib` is declared in `app.h` and defined outside this
file; per the collaborator interface `set_calibration(is_dry: bool, value: integer) -> void`
it stores the value in the dry (`true`) or wet (`false`) channel. -/
def set_calib (is_dry : Bool) (value : Int) (c : Calib) : Calib :=
  if is_dry then { c with dry := value } else { c with wet := value }

/-- The declarations this file takes from the host and that are not fixed by it:
the error code `AT_ERRNO_PARA_VAL` of the AT parser, and the calibration run
`start_calib(is_dry)`, which returns an integer and may change the calibration store. -/
structure Host where
  AT_ERRNO_PARA_VAL : Int
  start_calib : Bool → Calib → Nat × Calib

/-- Everything a handler can read or change: the calibration store, the connection
flag `g_ble_uart_is_connected`, and the texts written so far (oldest first) to
`Serial` and to `g_ble_uart`. -/
structure World where
  calib : Calib
  g_ble_uart_is_connected : Bool
  Serial : List String
  g_ble_uart : List String
deriving DecidableEq, Repr

/-! ## `user_at.cpp` -/

/-- The macro `AT_PRINTF(...)`: `Serial.printf(...)`, then, if `g_ble_uart_is_connected`,
`g_ble_uart.printf(...)`.  The macro pastes its arguments twice, so they are evaluated
once for each `printf`; `args` is that evaluation. -/
def AT_PRINTF (fmt : String) (args : World → List Int) (w : World) : World :=
  let w1 := { w with Serial := w.Serial ++ [sprintf fmt (args w)] }
  if w1.g_ble_uart_is_connected then
    { w1 with g_ble_uart := w1.g_ble_uart ++ [sprintf fmt (args w1)] }
  else w1

/-- Runs `start_calib(is_dry)` on the world and yields the value assigned to
`uint16_t new_val`. -/
def call_start_calib (h : Host) (is_dry : Bool) (w : World) : Nat × World :=
  let r := h.start_calib is_dry w.calib
  (r.1 % 65536, { w with calib := r.2 })

/-- Start dry calibration. -/
def at_exec_dry (h : Host) (w : World) : Int × World :=
  let w := AT_PRINTF "Start Dry Calibration\n" (fun _ => []) w
  let (new_val, w) := call_start_calib h true w
  let w :=
    if new_val = 0xFFFF then
      AT_PRINTF "Calibration failed, please try again" (fun _ => []) w
    else
      AT_PRINTF "New Dry Calibration Value: %d" (fun _ => [(new_val : Int)]) w
  (0, w)

/-- Set the dry calibration value from the argument of `AT+DRY=<value>`. -/
def at_set_dry (h : Host) (str : List Char) (w : World) : Int × World :=
  let dry_val := strtol str 0
  if dry_val < 0 ∨ dry_val > 1000 then
    (h.AT_ERRNO_PARA_VAL, w)
  else
    (0, { w with calib := set_calib true dry_val w.calib })

/-- Query dry calibration value. -/
def at_query_dry (w : World) : Int × World :=
  let w := AT_PRINTF "Dry Calibration Value: %d" (fun w => [get_calib true w.calib]) w
  (0, w)

/-- Start wet calibration. -/
def at_exec_wet (h : Host) (w : World) : Int × World :=
  let w := AT_PRINTF "Start Wet Calibration\n" (fun _ => []) w
  let (new_val, w) := call_start_calib h false w
  let w :=
    if new_val = 0xFFFF then
      AT_PRINTF "Calibration failed, please try again" (fun _ => []) w
    else
      AT_PRINTF "New Wet Calibration Value: %d" (fun _ => [(new_val : Int)]) w
  (0, w)

/-- Set the wet calibration value from the argument of `AT+WET=<value>`. -/
def at_set_wet (h : Host) (str : List Char) (w : World) : Int × World :=
  let wet_val := strtol str 0
  if wet_val < 0 ∨ wet_val > 1000 then
    (h.AT_ERRNO_PARA_VAL, w)
  else
    (0, { w with calib := set_calib false wet_val w.calib })

/-- Query wet calibration value. -/
def at_query_wet (w : World) : Int × World :=
  let w := AT_PRINTF "Wet Calibration Value: %d" (fun w => [get_calib false w.calib]) w
  (0, w)

/-- The descriptor type `atcmd_t` of the AT parser, in the field order of the table's
initialisers: command name, help text, and the handlers for `AT+CMD?`,
`AT+CMD=value` and `AT+CMD`; `none` is a null function pointer. -/
structure atcmd_t where
  cmd_name : String
  cmd_desc : String
  query_cmd : Option (World → Int × World)
  set_cmd : Option (List Char → World → Int × World)
  exec_cmd : Option (World → Int × World)

/-- The table of user defined AT commands. -/
def g_user_at_cmd_list (h : Host) : List atcmd_t :=
  [ { cmd_name := "+DRY", cmd_desc := "Get/Set dry calibration value",
      query_cmd := some at_query_dry, set_cmd := some (at_set_dry h),
      exec_cmd := some (at_exec_dry h) },
    { cmd_name := "+WET", cmd_desc := "Get/Set wet calibration value",
      query_cmd := some at_query_wet, set_cmd := some (at_set_wet h),
      exec_cmd := some (at_exec_wet h) } ]

/-- The operator `sizeof` on an array of `atcmd_t`: the number of its elements times
the size of one descriptor. -/
def sizeof_table (table : List atcmd_t) (sizeof_atcmd_t : Nat) : Nat :=
  table.length * sizeof_atcmd_t

/-- Number of user defined AT commands: the initialiser
`sizeof(g_user_at_cmd_list) / sizeof(atcmd_t)` converted to `uint8_t`, as a function of
the array it measures (`table`, the contents of `g_user_at_cmd_list` whatever its
initialisers are) and of the size of one descriptor. -/
def g_user_at_cmd_num (table : List atcmd_t) (sizeof_atcmd_t : Nat) : Nat :=
  sizeof_table table sizeof_atcmd_t / sizeof_atcmd_t % 256

/-- Modelled from the spec: the lookup of the host's AT parser is outside this file;
per the spec it "looks up a command by name", here the first descriptor of the table
with that name. -/
def find_cmd (name : String) (table : List atcmd_t) : Option atcmd_t :=
  table.find? (fun d => d.cmd_name == name)

/-- The fan-out of a handler's output at a world: whatever the connection flag is, the
handler returns the same value and appends the same non-empty sequence of messages to
`Serial`; `g_ble_uart` gets that same sequence when the flag is set and nothing when it
is not. -/
def mirrorsOutput (handler : World → Int × World) (w : World) : Prop :=
  ∃ (ret : Int) (msgs : List String), msgs ≠ [] ∧ ∀ connected : Bool,
    (handler { w with g_ble_uart_is_connected := connected }).1 = ret ∧
    (handler { w with g_ble_uart_is_connected := connected }).2.Serial = w.Serial ++ msgs ∧
    (handler { w with g_ble_uart_is_connected := connected }).2.g_ble_uart
      = w.g_ble_uart ++ (if connected then msgs else [])

/-! ## Lemmas on `strtol` -/

/-- Reading back the character of a decimal digit gives the digit. -/
theorem digitValue_digitChar (k : Nat) (hk : k < 10) : digitValue (Nat.digitChar k) = some k := by
  interval_cases k <;> decide

/-- The digit loop in base 10 reads the digits that `Nat.toDigitsCore` puts in front of `ds` as the number they were made from. -/
theorem accumulate_toDigitsCore (fuel : Nat) : ∀ (n : Nat) (ds : List Char), n < fuel →
    accumulate 10 0 (Nat.toDigitsCore 10 fuel n ds) = accumulate 10 n ds := by
  induction fuel with
  | zero => intro n ds hn; omega
  | succ fuel ih =>
    intro n ds hn
    have hd : digitValue (Nat.digitChar (n % 10)) = some (n % 10) :=
      digitValue_digitChar _ (Nat.mod_lt _ (by decide))
    have hlt : n % 10 < 10 := Nat.mod_lt _ (by decide)
    by_cases hq : n / 10 = 0
    · have hn10 : n % 10 = n := by omega
      simp only [Nat.toDigitsCore, hq, if_true, accumulate, hd, hlt]
      simp [hn10]
    · have hstep : n / 10 * 10 + n % 10 = n := by omega
      simp only [Nat.toDigitsCore, hq, if_false]
      rw [ih (n / 10) _ (by omega)]
      simp [accumulate, hd, hlt, hstep]

/-- The decimal text of a number starts with a digit character, not `0` for a positive number. -/
theorem head_toDigitsCore (fuel : Nat) : ∀ (n : Nat) (ds : List Char), n < fuel →
    ∃ k rest, k < 10 ∧ (0 < n → 0 < k) ∧
      Nat.toDigitsCore 10 fuel n ds = Nat.digitChar k :: rest := by
  induction fuel with
  | zero => intro n ds hn; omega
  | succ fuel ih =>
    intro n ds hn
    by_cases hq : n / 10 = 0
    · refine ⟨n % 10, ds, Nat.mod_lt _ (by decide), fun h => by omega, ?_⟩
      simp [Nat.toDigitsCore, hq]
    · obtain ⟨k, rest, hk, hpos, he⟩ := ih (n / 10) (Nat.digitChar (n % 10) :: ds) (by omega)
      refine ⟨k, rest, hk, fun _ => hpos (by omega), ?_⟩
      simp only [Nat.toDigitsCore, hq, if_false]
      exact he

/-- On hexadecimal digits `strtol` reads the value the digit denotes, which is below 16. -/
theorem digitValue_of_isxdigit (c : Char) (hc : isxdigit c = true) :
    digitValue c = some (digitDenotes c) ∧ digitDenotes c < 16 := by
  have hof : c = Char.ofNat c.toNat := (Char.ofNat_toNat c).symm
  have hr : (48 ≤ c.toNat ∧ c.toNat ≤ 57) ∨ (65 ≤ c.toNat ∧ c.toNat ≤ 70) ∨
      (97 ≤ c.toNat ∧ c.toNat ≤ 102) := by
    simpa [isxdigit, or_assoc] using hc
  generalize c.toNat = m at hof hr
  subst hof
  rcases hr with ⟨h1, h2⟩ | ⟨h1, h2⟩ | ⟨h1, h2⟩ <;> interval_cases m <;> decide

/-- On octal digits `strtol` reads the value the digit denotes, which is below 8. -/
theorem digitValue_of_isodigit (c : Char) (hc : isodigit c = true) :
    digitValue c = some (digitDenotes c) ∧ digitDenotes c < 8 := by
  have hof : c = Char.ofNat c.toNat := (Char.ofNat_toNat c).symm
  have hr : 48 ≤ c.toNat ∧ c.toNat ≤ 55 := by
    simpa [isodigit] using hc
  generalize c.toNat = m at hof hr
  subst hof
  obtain ⟨h1, h2⟩ := hr
  interval_cases m <;> decide

/-- On a run of digits of the base, the digit loop shifts the accumulator and adds the value of the numeral. -/
theorem accumulate_numeral (base : Nat) (ds : List Char) :
    ∀ acc : Nat, (∀ c ∈ ds, digitValue c = some (digitDenotes c) ∧ digitDenotes c < base) →
      accumulate base acc ds = acc * base ^ ds.length + numeralValue base ds := by
  induction ds with
  | nil => intro acc _; simp [accumulate, numeralValue]
  | cons c cs ih =>
    intro acc hall
    obtain ⟨hv, hlt⟩ := hall c (List.mem_cons_self c cs)
    have hrest := ih (acc * base + digitDenotes c) (fun d hd => hall d (List.mem_cons_of_mem c hd))
    simp only [accumulate, hv, hlt, if_true, hrest]
    simp only [numeralValue, List.reverse_cons, List.map_append, List.map_cons, List.map_nil,
      Nat.ofDigits_append, Nat.ofDigits_singleton, List.length_map, List.length_reverse,
      List.length_cons]
    ring

/-- An argument that starts with one of `1`-`9` is read in base 10. -/
theorem strtol_nonzero_digit (k : Nat) (rest : List Char) (h1 : 0 < k) (h9 : k < 10) :
    strtol (Nat.digitChar k :: rest) 0
      = min (accumulate 10 0 (Nat.digitChar k :: rest) : Int) LONG_MAX := by
  interval_cases k <;> simp [strtol, isspace, startsWith0x, Nat.digitChar, List.dropWhile]

/-- With base 0, `strtol` reads the decimal text of `n` as `n`, saturated to `LONG_MAX`. -/
theorem strtol_decimal (n : Nat) : strtol (Nat.toDigits 10 n) 0 = min (n : Int) LONG_MAX := by
  rcases Nat.eq_zero_or_pos n with rfl | hpos
  · decide
  · obtain ⟨k, rest, hk, hkpos, he⟩ := head_toDigitsCore (n + 1) n [] (Nat.lt_succ_self n)
    have hacc := accumulate_toDigitsCore (n + 1) n [] (Nat.lt_succ_self n)
    unfold Nat.toDigits
    rw [he] at hacc ⊢
    rw [strtol_nonzero_digit k rest (hkpos hpos) hk, hacc]
    simp [accumulate]



/-- With base 0, `strtol` reads a `0x`/`0X` numeral as its hexadecimal value, saturated to `LONG_MAX`. -/
theorem strtol_hex (x : Char) (ds : List Char) (hx : x = 'x' ∨ x = 'X')
    (hds : ∀ c ∈ ds, isxdigit c = true) :
    strtol ('0' :: x :: ds) 0 = min (numeralValue 16 ds : Int) LONG_MAX := by
  have hacc := accumulate_numeral 16 ds 0 (fun c hc => digitValue_of_isxdigit c (hds c hc))
  rcases hx with rfl | rfl <;>
    simp [strtol, isspace, startsWith0x, List.dropWhile, hacc]

/-- With base 0, `strtol` reads a numeral with a leading `0` as its octal value, saturated to `LONG_MAX`. -/
theorem strtol_oct (os : List Char) (hos : ∀ c ∈ os, isodigit c = true) :
    strtol ('0' :: os) 0 = min (numeralValue 8 os : Int) LONG_MAX := by
  have hacc := accumulate_numeral 8 os 0 (fun c hc => digitValue_of_isodigit c (hos c hc))
  have hnx : os.head? ≠ some 'x' ∧ os.head? ≠ some 'X' := by
    cases os with
    | nil => simp
    | cons c cs =>
      have hc := hos c (List.mem_cons_self c cs)
      constructor <;> (intro he; simp at he; subst he; revert hc; decide)
  have hz : digitValue '0' = some 0 := by decide
  simp [strtol, isspace, startsWith0x, List.dropWhile, hnx.1, hnx.2, accumulate, hz, hacc]

/-- Where the text after white space and sign does not start with `0`-`9`, there is no `0x` mark, no leading `0`, and the digit loop reads nothing. -/
theorem body_noInteger (t : List Char)
    (ht : (match t.head? with
      | none => true
      | some c => !(decide (48 ≤ c.toNat) && decide (c.toNat ≤ 57))) = true) :
    startsWith0x t = false ∧ t.head? ≠ some '0' ∧ accumulate 10 0 t = 0 := by
  cases t with
  | nil => simp [startsWith0x, accumulate]
  | cons c r =>
    have hc : ¬ (48 ≤ c.toNat ∧ c.toNat ≤ 57) := by
      have ht2 : c.toNat < 48 ∨ 57 < c.toNat := by simpa using ht
      omega
    have hne : c ≠ '0' := by
      intro e
      subst e
      exact hc (by decide)
    refine ⟨by simp [startsWith0x, hne], by simp [hne], ?_⟩
    unfold accumulate digitValue
    rw [if_neg hc]
    split_ifs <;> simp

/-- An argument that holds no integer is read as 0. -/
theorem strtol_noInteger (str : List Char) (hn : noInteger str = true) : strtol str 0 = 0 := by
  unfold noInteger at hn
  unfold strtol
  generalize List.dropWhile isspace str = s at hn ⊢
  obtain ⟨hhex, hzero, hacc⟩ := body_noInteger _ hn
  simp only [hhex, hzero, hacc]
  simp [LONG_MIN, LONG_MAX, if_neg hzero, hacc]

/-- The text of a non-negative integer is the decimal text of the natural number. -/
theorem toList_toString_ofNat (n : Nat) : (toString (n : Int)).toList = Nat.toDigits 10 n := rfl

/-- The result of `at_set_dry` depends on its argument only through `strtol`. -/
theorem at_set_dry_congr (h : Host) (w : World) (s t : List Char)
    (e : strtol s 0 = strtol t 0) : at_set_dry h s w = at_set_dry h t w := by
  simp [at_set_dry, e]

/-- The result of `at_set_wet` depends on its argument only through `strtol`. -/
theorem at_set_wet_congr (h : Host) (w : World) (s t : List Char)
    (e : strtol s 0 = strtol t 0) : at_set_wet h s w = at_set_wet h t w := by
  simp [at_set_wet, e]

/-- A parsed value in `[0, 1000]` is stored in the dry channel and 0 is returned. -/
theorem at_set_dry_accept (h : Host) (w : World) (s : List Char) (v : Int)
    (hs : strtol s 0 = v) (hlo : 0 ≤ v) (hhi : v ≤ 1000) :
    at_set_dry h s w = (0, { w with calib := { w.calib with dry := v } }) := by
  have hnot : ¬ (v < 0 ∨ v > 1000) := by omega
  simp only [at_set_dry, hs, if_neg hnot, set_calib, if_true]

/-- A parsed value in `[0, 1000]` is stored in the wet channel and 0 is returned. -/
theorem at_set_wet_accept (h : Host) (w : World) (s : List Char) (v : Int)
    (hs : strtol s 0 = v) (hlo : 0 ≤ v) (hhi : v ≤ 1000) :
    at_set_wet h s w = (0, { w with calib := { w.calib with wet := v } }) := by
  have hnot : ¬ (v < 0 ∨ v > 1000) := by omega
  simp only [at_set_wet, hs, if_neg hnot, set_calib]
  rfl

/-- A parsed value outside `[0, 1000]` makes `at_set_dry` return the error code with the world untouched. -/
theorem at_set_dry_reject (h : Host) (w : World) (s : List Char)
    (hv : strtol s 0 < 0 ∨ strtol s 0 > 1000) :
    at_set_dry h s w = (h.AT_ERRNO_PARA_VAL, w) := by
  simp only [at_set_dry, if_pos hv]

/-- A parsed value outside `[0, 1000]` makes `at_set_wet` return the error code with the world untouched. -/
theorem at_set_wet_reject (h : Host) (w : World) (s : List Char)
    (hv : strtol s 0 < 0 ∨ strtol s 0 > 1000) :
    at_set_wet h s w = (h.AT_ERRNO_PARA_VAL, w) := by
  simp only [at_set_wet, if_pos hv]

/-! ## The Set handlers -/

/-- C1: for every integer `v` with `0 ≤ v ≤ 1000`, the Set handler of either channel,
called with the decimal string of `v`, returns 0 and leaves the world changed only in
that channel's stored calibration value, which is then `v`. -/
theorem set_decimal_in_range (h : Host) (w : World) (v : Int) (hlo : 0 ≤ v) (hhi : v ≤ 1000) :
    at_set_dry h (toString v).toList w
        = (0, { w with calib := { w.calib with dry := v } }) ∧
      get_calib true (at_set_dry h (toString v).toList w).2.calib = v ∧
      at_set_wet h (toString v).toList w
        = (0, { w with calib := { w.calib with wet := v } }) ∧
      get_calib false (at_set_wet h (toString v).toList w).2.calib = v := by
  obtain ⟨n, rfl⟩ := Int.eq_ofNat_of_zero_le hlo
  have hs : strtol (toString (n : Int)).toList 0 = (n : Int) := by
    rw [toList_toString_ofNat, strtol_decimal]
    simp only [LONG_MAX]
    omega
  have hd := at_set_dry_accept h w _ _ hs hlo hhi
  have hw := at_set_wet_accept h w _ _ hs hlo hhi
  refine ⟨hd, ?_, hw, ?_⟩
  · rw [hd]; rfl
  · rw [hw]; rfl

theorem set_decimal_in_range_witness :
    ((0 : Int) ≤ 500 ∧ (500 : Int) ≤ 1000) ∧
      at_set_dry ⟨5, fun _ c => (0, c)⟩ "500".toList ⟨⟨0, 0⟩, false, [], []⟩
        = (0, ⟨⟨500, 0⟩, false, [], []⟩) ∧
      at_set_wet ⟨5, fun _ c => (0, c)⟩ "500".toList ⟨⟨0, 0⟩, false, [], []⟩
        = (0, ⟨⟨0, 500⟩, false, [], []⟩) :=
  have t := set_decimal_in_range ⟨5, fun _ c => (0, c)⟩ ⟨⟨0, 0⟩, false, [], []⟩ 500
    (by decide) (by decide)
  ⟨⟨by decide, by decide⟩, t.1, t.2.2.1⟩

/-- C2: for every argument string whose parsed value `strtol(str, NULL, 0)` is negative
or greater than 1000, both Set handlers return `AT_ERRNO_PARA_VAL` and leave the whole
world as it was: both stored calibration values are unchanged and nothing is written
to either output channel. -/
theorem set_out_of_range (h : Host) (w : World) (str : List Char)
    (hv : strtol str 0 < 0 ∨ 1000 < strtol str 0) :
    (at_set_dry h str w = (h.AT_ERRNO_PARA_VAL, w) ∧
      at_set_wet h str w = (h.AT_ERRNO_PARA_VAL, w)) ∧
    (at_set_dry h "1500".toList w = (h.AT_ERRNO_PARA_VAL, w) ∧
      at_set_dry h "1001".toList w = (h.AT_ERRNO_PARA_VAL, w) ∧
      at_set_dry h "-1".toList w = (h.AT_ERRNO_PARA_VAL, w)) ∧
    (at_set_wet h "1500".toList w = (h.AT_ERRNO_PARA_VAL, w) ∧
      at_set_wet h "1001".toList w = (h.AT_ERRNO_PARA_VAL, w) ∧
      at_set_wet h "-1".toList w = (h.AT_ERRNO_PARA_VAL, w)) := by
  have a1 : strtol "1500".toList 0 < 0 ∨ strtol "1500".toList 0 > 1000 := by decide
  have a2 : strtol "1001".toList 0 < 0 ∨ strtol "1001".toList 0 > 1000 := by decide
  have a3 : strtol "-1".toList 0 < 0 ∨ strtol "-1".toList 0 > 1000 := by decide
  exact ⟨⟨at_set_dry_reject h w str hv, at_set_wet_reject h w str hv⟩,
    ⟨at_set_dry_reject h w _ a1, at_set_dry_reject h w _ a2, at_set_dry_reject h w _ a3⟩,
    ⟨at_set_wet_reject h w _ a1, at_set_wet_reject h w _ a2, at_set_wet_reject h w _ a3⟩⟩

theorem set_out_of_range_witness :
    (strtol "1500".toList 0 < 0 ∨ 1000 < strtol "1500".toList 0) ∧
      at_set_dry ⟨5, fun _ c => (0, c)⟩ "1500".toList ⟨⟨300, 700⟩, true, [], []⟩
        = (5, ⟨⟨300, 700⟩, true, [], []⟩) ∧
      at_set_wet ⟨5, fun _ c => (0, c)⟩ "1500".toList ⟨⟨300, 700⟩, true, [], []⟩
        = (5, ⟨⟨300, 700⟩, true, [], []⟩) :=
  ⟨by decide, (set_out_of_range ⟨5, fun _ c => (0, c)⟩ ⟨⟨300, 700⟩, true, [], []⟩ "1500".toList
    (by decide)).1⟩

/-- C3: for every argument string that holds no integer (such as `abc` or the empty
string), `strtol` yields 0, both Set handlers return 0, and the stored calibration
value of the handler's channel becomes 0, the rest of the world unchanged. -/
theorem set_no_integer (h : Host) (w : World) (str : List Char) (hn : noInteger str = true) :
    strtol str 0 = 0 ∧
      at_set_dry h str w = (0, { w with calib := { w.calib with dry := 0 } }) ∧
      at_set_wet h str w = (0, { w with calib := { w.calib with wet := 0 } }) := by
  have hs := strtol_noInteger str hn
  exact ⟨hs, at_set_dry_accept h w str 0 hs (by decide) (by decide),
    at_set_wet_accept h w str 0 hs (by decide) (by decide)⟩

theorem set_no_integer_witness :
    (noInteger "abc".toList = true ∧ noInteger "".toList = true ∧
      noInteger " -x1".toList = true) ∧ strtol "abc".toList 0 = 0 ∧
      at_set_dry ⟨5, fun _ c => (0, c)⟩ "abc".toList ⟨⟨300, 700⟩, true, [], []⟩
        = (0, ⟨⟨0, 700⟩, true, [], []⟩) ∧
      at_set_wet ⟨5, fun _ c => (0, c)⟩ "abc".toList ⟨⟨300, 700⟩, true, [], []⟩
        = (0, ⟨⟨300, 0⟩, true, [], []⟩) :=
  ⟨⟨by decide, by decide, by decide⟩,
    set_no_integer ⟨5, fun _ c => (0, c)⟩ ⟨⟨300, 700⟩, true, [], []⟩ "abc".toList (by decide)⟩

/-- C4: the Set handlers read their argument with base 0: a hexadecimal literal
(`0x` or `0X`, then hexadecimal digits) or an octal literal (`0`, then octal digits)
that stands for `n` gets the same return value and the same resulting world as the
decimal string of `n`.  So `0x1F4` and `0764` store 500 and return 0, `010` stores 8,
and `0x3E9` (1001) is refused with `AT_ERRNO_PARA_VAL`. -/
theorem set_base_flexible (h : Host) (w : World) (x : Char) (ds os : List Char)
    (hx : x = 'x' ∨ x = 'X') (hds : ∀ c ∈ ds, isxdigit c = true)
    (hos : ∀ c ∈ os, isodigit c = true) :
    (at_set_dry h ('0' :: x :: ds) w = at_set_dry h (Nat.toDigits 10 (numeralValue 16 ds)) w ∧
      at_set_wet h ('0' :: x :: ds) w = at_set_wet h (Nat.toDigits 10 (numeralValue 16 ds)) w ∧
      at_set_dry h ('0' :: os) w = at_set_dry h (Nat.toDigits 10 (numeralValue 8 os)) w ∧
      at_set_wet h ('0' :: os) w = at_set_wet h (Nat.toDigits 10 (numeralValue 8 os)) w) ∧
    (at_set_dry h "0x1F4".toList w = (0, { w with calib := { w.calib with dry := 500 } }) ∧
      at_set_dry h "0764".toList w = (0, { w with calib := { w.calib with dry := 500 } }) ∧
      at_set_dry h "010".toList w = (0, { w with calib := { w.calib with dry := 8 } }) ∧
      at_set_dry h "0x3E9".toList w = (h.AT_ERRNO_PARA_VAL, w)) ∧
    (at_set_wet h "0x1F4".toList w = (0, { w with calib := { w.calib with wet := 500 } }) ∧
      at_set_wet h "0764".toList w = (0, { w with calib := { w.calib with wet := 500 } }) ∧
      at_set_wet h "010".toList w = (0, { w with calib := { w.calib with wet := 8 } }) ∧
      at_set_wet h "0x3E9".toList w = (h.AT_ERRNO_PARA_VAL, w)) := by
  have e16 : strtol ('0' :: x :: ds) 0 = strtol (Nat.toDigits 10 (numeralValue 16 ds)) 0 := by
    rw [strtol_hex x ds hx hds, strtol_decimal]
  have e8 : strtol ('0' :: os) 0 = strtol (Nat.toDigits 10 (numeralValue 8 os)) 0 := by
    rw [strtol_oct os hos, strtol_decimal]
  have a1 : strtol "0x1F4".toList 0 = 500 := by decide
  have a2 : strtol "0764".toList 0 = 500 := by decide
  have a3 : strtol "010".toList 0 = 8 := by decide
  have a4 : strtol "0x3E9".toList 0 = 1001 := by decide
  refine ⟨⟨at_set_dry_congr h w _ _ e16, at_set_wet_congr h w _ _ e16,
    at_set_dry_congr h w _ _ e8, at_set_wet_congr h w _ _ e8⟩, ?_, ?_⟩
  · exact ⟨at_set_dry_accept h w _ 500 a1 (by decide) (by decide),
      at_set_dry_accept h w _ 500 a2 (by decide) (by decide),
      at_set_dry_accept h w _ 8 a3 (by decide) (by decide),
      at_set_dry_reject h w _ (Or.inr (by rw [a4]; decide))⟩
  · exact ⟨at_set_wet_accept h w _ 500 a1 (by decide) (by decide),
      at_set_wet_accept h w _ 500 a2 (by decide) (by decide),
      at_set_wet_accept h w _ 8 a3 (by decide) (by decide),
      at_set_wet_reject h w _ (Or.inr (by rw [a4]; decide))⟩

theorem set_base_flexible_witness :
    (('x' = 'x' ∨ 'x' = 'X') ∧ (∀ c ∈ "1F4".toList, isxdigit c = true) ∧
      (∀ c ∈ "764".toList, isodigit c = true)) ∧
    (numeralValue 16 "1F4".toList = 500 ∧ numeralValue 8 "764".toList = 500) ∧
    at_set_dry ⟨5, fun _ c => (0, c)⟩ ('0' :: 'x' :: "1F4".toList) ⟨⟨300, 700⟩, true, [], []⟩
      = at_set_dry ⟨5, fun _ c => (0, c)⟩ (Nat.toDigits 10 (numeralValue 16 "1F4".toList))
          ⟨⟨300, 700⟩, true, [], []⟩ ∧
    at_set_wet ⟨5, fun _ c => (0, c)⟩ ('0' :: "764".toList) ⟨⟨300, 700⟩, true, [], []⟩
      = at_set_wet ⟨5, fun _ c => (0, c)⟩ (Nat.toDigits 10 (numeralValue 8 "764".toList))
          ⟨⟨300, 700⟩, true, [], []⟩ :=
  have t := set_base_flexible ⟨5, fun _ c => (0, c)⟩ ⟨⟨300, 700⟩, true, [], []⟩ 'x'
    "1F4".toList "764".toList (Or.inl rfl) (by decide) (by decide)
  ⟨⟨Or.inl rfl, by decide, by decide⟩, ⟨by decide, by decide⟩, t.1.1, t.1.2.2.2⟩

/-! ## Output -/

/-- The dry start announcement has no conversion and is written as it stands. -/
theorem sprintf_start_dry : sprintf "Start Dry Calibration\n" [] = "Start Dry Calibration\n" := by
  decide

/-- The wet start announcement has no conversion and is written as it stands. -/
theorem sprintf_start_wet : sprintf "Start Wet Calibration\n" [] = "Start Wet Calibration\n" := by
  decide

/-- The failure message has no conversion and is written as it stands. -/
theorem sprintf_failed :
    sprintf "Calibration failed, please try again" [] = "Calibration failed, please try again" := by
  decide

/-- Text of the new dry value message. -/
theorem sprintf_new_dry (v : Int) :
    sprintf "New Dry Calibration Value: %d" [v] = "New Dry Calibration Value: " ++ toString v := by
  apply String.ext
  simp [sprintf, vformat, fmt_d]

/-- Text of the new wet value message. -/
theorem sprintf_new_wet (v : Int) :
    sprintf "New Wet Calibration Value: %d" [v] = "New Wet Calibration Value: " ++ toString v := by
  apply String.ext
  simp [sprintf, vformat, fmt_d]

/-- Text of the dry query report. -/
theorem sprintf_dry (v : Int) :
    sprintf "Dry Calibration Value: %d" [v] = "Dry Calibration Value: " ++ toString v := by
  apply String.ext
  simp [sprintf, vformat, fmt_d]

/-- Text of the wet query report. -/
theorem sprintf_wet (v : Int) :
    sprintf "Wet Calibration Value: %d" [v] = "Wet Calibration Value: " ++ toString v := by
  apply String.ext
  simp [sprintf, vformat, fmt_d]

/-- One `AT_PRINTF` whose arguments do not read the `Serial` log: the message goes to `Serial`, and to `g_ble_uart` when connected. -/
theorem AT_PRINTF_eq (fmt : String) (args : World → List Int) (w : World)
    (hargs : args { w with Serial := w.Serial ++ [sprintf fmt (args w)] } = args w) :
    AT_PRINTF fmt args w =
      { w with
        Serial := w.Serial ++ [sprintf fmt (args w)]
        g_ble_uart := w.g_ble_uart ++
          (if w.g_ble_uart_is_connected then [sprintf fmt (args w)] else []) } := by
  obtain ⟨c, f, s, b⟩ := w
  cases f <;> simp_all [AT_PRINTF]

/-- The whole effect of `at_query_dry`. -/
theorem at_query_dry_eq (w : World) :
    at_query_dry w = (0, { w with
      Serial := w.Serial ++ ["Dry Calibration Value: " ++ toString w.calib.dry]
      g_ble_uart := w.g_ble_uart ++
        (if w.g_ble_uart_is_connected then
          ["Dry Calibration Value: " ++ toString w.calib.dry] else []) }) := by
  unfold at_query_dry
  rw [AT_PRINTF_eq _ _ _ rfl]
  simp only [get_calib, if_true, sprintf_dry]

/-- The whole effect of `at_query_wet`. -/
theorem at_query_wet_eq (w : World) :
    at_query_wet w = (0, { w with
      Serial := w.Serial ++ ["Wet Calibration Value: " ++ toString w.calib.wet]
      g_ble_uart := w.g_ble_uart ++
        (if w.g_ble_uart_is_connected then
          ["Wet Calibration Value: " ++ toString w.calib.wet] else []) }) := by
  unfold at_query_wet
  rw [AT_PRINTF_eq _ _ _ rfl]
  simp only [get_calib, sprintf_wet]
  rfl

/-- The whole effect of `at_exec_dry` when the calibration run returns `r` and leaves the store as `c`. -/
theorem at_exec_dry_eq (h : Host) (w : World) (r : Nat) (c : Calib)
    (hrun : h.start_calib true w.calib = (r, c)) :
    at_exec_dry h w = (0, {
      calib := c
      g_ble_uart_is_connected := w.g_ble_uart_is_connected
      Serial := w.Serial ++ ["Start Dry Calibration\n",
        if r % 65536 = 65535 then "Calibration failed, please try again"
        else "New Dry Calibration Value: " ++ toString ((r % 65536 : Nat) : Int)]
      g_ble_uart := w.g_ble_uart ++
        (if w.g_ble_uart_is_connected then ["Start Dry Calibration\n",
          if r % 65536 = 65535 then "Calibration failed, please try again"
          else "New Dry Calibration Value: " ++ toString ((r % 65536 : Nat) : Int)] else []) }) := by
  obtain ⟨c0, f, s, b⟩ := w
  simp only at hrun
  by_cases hr : r % 65536 = 65535 <;> cases f <;>
    simp [at_exec_dry, call_start_calib, AT_PRINTF_eq, hrun, hr, sprintf_start_dry,
      sprintf_failed, sprintf_new_dry]

/-- The whole effect of `at_exec_wet` when the calibration run returns `r` and leaves the store as `c`. -/
theorem at_exec_wet_eq (h : Host) (w : World) (r : Nat) (c : Calib)
    (hrun : h.start_calib false w.calib = (r, c)) :
    at_exec_wet h w = (0, {
      calib := c
      g_ble_uart_is_connected := w.g_ble_uart_is_connected
      Serial := w.Serial ++ ["Start Wet Calibration\n",
        if r % 65536 = 65535 then "Calibration failed, please try again"
        else "New Wet Calibration Value: " ++ toString ((r % 65536 : Nat) : Int)]
      g_ble_uart := w.g_ble_uart ++
        (if w.g_ble_uart_is_connected then ["Start Wet Calibration\n",
          if r % 65536 = 65535 then "Calibration failed, please try again"
          else "New Wet Calibration Value: " ++ toString ((r % 65536 : Nat) : Int)] else []) }) := by
  obtain ⟨c0, f, s, b⟩ := w
  simp only at hrun
  by_cases hr : r % 65536 = 65535 <;> cases f <;>
    simp [at_exec_wet, call_start_calib, AT_PRINTF_eq, hrun, hr, sprintf_start_wet,
      sprintf_failed, sprintf_new_wet]

/-! ## The Execute and Query handlers -/

/-- C5: for every 16-bit value returned by the calibration start routine, the Execute
handlers return 0, and after the start announcement they write exactly one message:
`Calibration failed, please try again` when the value is 0xFFFF, and otherwise the
new-value message ending in the decimal text of the value. -/
theorem exec_reports_result (h : Host) (w : World) (r_dry r_wet : Nat) (c_dry c_wet : Calib)
    (hrd : r_dry < 65536) (hrw : r_wet < 65536)
    (hdry : h.start_calib true w.calib = (r_dry, c_dry))
    (hwet : h.start_calib false w.calib = (r_wet, c_wet)) :
    ((at_exec_dry h w).1 = 0 ∧
      (at_exec_dry h w).2.Serial = w.Serial ++ ["Start Dry Calibration\n",
        if r_dry = 0xFFFF then "Calibration failed, please try again"
        else "New Dry Calibration Value: " ++ toString r_dry]) ∧
    ((at_exec_wet h w).1 = 0 ∧
      (at_exec_wet h w).2.Serial = w.Serial ++ ["Start Wet Calibration\n",
        if r_wet = 0xFFFF then "Calibration failed, please try again"
        else "New Wet Calibration Value: " ++ toString r_wet]) := by
  rw [at_exec_dry_eq h w r_dry c_dry hdry, at_exec_wet_eq h w r_wet c_wet hwet,
    Nat.mod_eq_of_lt hrd, Nat.mod_eq_of_lt hrw]
  exact ⟨⟨rfl, rfl⟩, rfl, rfl⟩

theorem exec_reports_result_witness :
    ((0xFFFF : Nat) < 65536 ∧ (321 : Nat) < 65536) ∧
    (at_exec_dry ⟨5, fun b c => if b then (0xFFFF, c) else (321, c)⟩
        ⟨⟨300, 700⟩, false, [], []⟩).2.Serial
      = ["Start Dry Calibration\n", "Calibration failed, please try again"] ∧
    (at_exec_wet ⟨5, fun b c => if b then (0xFFFF, c) else (321, c)⟩
        ⟨⟨300, 700⟩, false, [], []⟩).2.Serial
      = ["Start Wet Calibration\n", "New Wet Calibration Value: 321"] :=
  have t := exec_reports_result ⟨5, fun b c => if b then (0xFFFF, c) else (321, c)⟩
    ⟨⟨300, 700⟩, false, [], []⟩ 0xFFFF 321 ⟨300, 700⟩ ⟨300, 700⟩ (by decide) (by decide) rfl rfl
  ⟨⟨by decide, by decide⟩, t.1.2, t.2.2⟩

/-- C6: for every calibration state and every connection status, the Query handlers
return 0 and leave the calibration store (both stored values) and the connection flag
as they were. -/
theorem query_keeps_calibration (w : World) :
    ((at_query_dry w).1 = 0 ∧ (at_query_dry w).2.calib = w.calib ∧
      (at_query_dry w).2.g_ble_uart_is_connected = w.g_ble_uart_is_connected) ∧
    ((at_query_wet w).1 = 0 ∧ (at_query_wet w).2.calib = w.calib ∧
      (at_query_wet w).2.g_ble_uart_is_connected = w.g_ble_uart_is_connected) := by
  rw [at_query_dry_eq, at_query_wet_eq]
  exact ⟨⟨rfl, rfl, rfl⟩, rfl, rfl, rfl⟩

/-- C7: the wet Query handler writes exactly `Wet Calibration Value: ` followed by the
decimal text of the stored wet value, and the dry Query handler writes exactly
`Dry Calibration Value: ` followed by the decimal text of the stored dry value; with
stored values dry 100 and wet 200 the texts are `Dry Calibration Value: 100` and
`Wet Calibration Value: 200`. -/
theorem query_text (w : World) :
    (at_query_wet w).2.Serial = w.Serial ++ ["Wet Calibration Value: " ++ toString w.calib.wet] ∧
    (at_query_dry w).2.Serial = w.Serial ++ ["Dry Calibration Value: " ++ toString w.calib.dry] ∧
    (at_query_wet ⟨⟨100, 200⟩, w.g_ble_uart_is_connected, [], []⟩).2.Serial
      = ["Wet Calibration Value: 200"] ∧
    (at_query_dry ⟨⟨100, 200⟩, w.g_ble_uart_is_connected, [], []⟩).2.Serial
      = ["Dry Calibration Value: 100"] := by
  refine ⟨by rw [at_query_wet_eq], by rw [at_query_dry_eq], ?_, ?_⟩
  · generalize w.g_ble_uart_is_connected = f
    cases f <;> decide
  · generalize w.g_ble_uart_is_connected = f
    cases f <;> decide

/-- C8: every Query and Execute handler writes each of its messages to `Serial` whatever
the connection flag is; `g_ble_uart` receives the same sequence of messages when the
flag is set and nothing when it is not, and the return value and the `Serial` output
do not depend on the flag. -/
theorem output_fan_out (h : Host) (w : World) :
    mirrorsOutput at_query_dry w ∧ mirrorsOutput at_query_wet w ∧
      mirrorsOutput (at_exec_dry h) w ∧ mirrorsOutput (at_exec_wet h) w := by
  refine ⟨⟨0, ["Dry Calibration Value: " ++ toString w.calib.dry], by simp, ?_⟩,
    ⟨0, ["Wet Calibration Value: " ++ toString w.calib.wet], by simp, ?_⟩,
    ⟨0, ["Start Dry Calibration\n",
      if (h.start_calib true w.calib).1 % 65536 = 65535 then
        "Calibration failed, please try again"
      else "New Dry Calibration Value: "
        ++ toString (((h.start_calib true w.calib).1 % 65536 : Nat) : Int)], by simp, ?_⟩,
    ⟨0, ["Start Wet Calibration\n",
      if (h.start_calib false w.calib).1 % 65536 = 65535 then
        "Calibration failed, please try again"
      else "New Wet Calibration Value: "
        ++ toString (((h.start_calib false w.calib).1 % 65536 : Nat) : Int)], by simp, ?_⟩⟩
  · intro connected
    rw [at_query_dry_eq]
    exact ⟨rfl, rfl, rfl⟩
  · intro connected
    rw [at_query_wet_eq]
    exact ⟨rfl, rfl, rfl⟩
  · intro connected
    rw [at_exec_dry_eq h _ _ _ rfl]
    exact ⟨rfl, rfl, rfl⟩
  · intro connected
    rw [at_exec_wet_eq h _ _ _ rfl]
    exact ⟨rfl, rfl, rfl⟩

/-! ## The command table -/

/-- C9: the published count `g_user_at_cmd_num` is derived from the size of the table:
for every table of fewer than 256 descriptors it equals the number of descriptors (and
for any table that number reduced to 8 bits), so for `g_user_at_cmd_list` it equals the
number of its descriptors, which is 2, the quotient of the sizes being below 256. -/
theorem cmd_num_is_table_length (h : Host) (table : List atcmd_t) (sizeof_atcmd_t : Nat)
    (hsz : 0 < sizeof_atcmd_t) (hlen : table.length < 256) :
    g_user_at_cmd_num table sizeof_atcmd_t = table.length ∧
      (∀ t : List atcmd_t, g_user_at_cmd_num t sizeof_atcmd_t = t.length % 256) ∧
      g_user_at_cmd_num (g_user_at_cmd_list h) sizeof_atcmd_t = (g_user_at_cmd_list h).length ∧
      (g_user_at_cmd_list h).length = 2 ∧
      sizeof_table (g_user_at_cmd_list h) sizeof_atcmd_t / sizeof_atcmd_t < 256 := by
  have hgen : ∀ t : List atcmd_t, g_user_at_cmd_num t sizeof_atcmd_t = t.length % 256 := by
    intro t
    unfold g_user_at_cmd_num sizeof_table
    rw [Nat.mul_div_cancel t.length hsz]
  have hlen2 : (g_user_at_cmd_list h).length = 2 := rfl
  refine ⟨?_, hgen, ?_, hlen2, ?_⟩
  · rw [hgen table, Nat.mod_eq_of_lt hlen]
  · rw [hgen (g_user_at_cmd_list h), hlen2]
  · unfold sizeof_table
    rw [Nat.mul_div_cancel _ hsz, hlen2]
    decide

theorem cmd_num_is_table_length_witness :
    (0 < 20 ∧
      (({ cmd_name := "+TST", cmd_desc := "", query_cmd := some at_query_dry,
          set_cmd := none, exec_cmd := none } : atcmd_t)
        :: g_user_at_cmd_list ⟨5, fun _ c => (0, c)⟩).length < 256) ∧
    g_user_at_cmd_num
      (({ cmd_name := "+TST", cmd_desc := "", query_cmd := some at_query_dry,
          set_cmd := none, exec_cmd := none } : atcmd_t)
        :: g_user_at_cmd_list ⟨5, fun _ c => (0, c)⟩) 20 = 3 ∧
    g_user_at_cmd_num (g_user_at_cmd_list ⟨5, fun _ c => (0, c)⟩) 20 = 2 :=
  have t := cmd_num_is_table_length ⟨5, fun _ c => (0, c)⟩
    (({ cmd_name := "+TST", cmd_desc := "", query_cmd := some at_query_dry,
        set_cmd := none, exec_cmd := none } : atcmd_t)
      :: g_user_at_cmd_list ⟨5, fun _ c => (0, c)⟩) 20 (by decide) (by decide)
  ⟨⟨by decide, by decide⟩, t.1, t.2.2.1.trans t.2.2.2.1⟩

/-- C10: in the command table the names are pairwise distinct, every descriptor has a
non-null handler, and looking up `+DRY` gives the descriptor whose query, set and
execute handlers are `at_query_dry`, `at_set_dry`, `at_exec_dry`, while looking up
`+WET` gives the one whose handlers are `at_query_wet`, `at_set_wet`, `at_exec_wet`;
the dry and the wet handler of each kind are different functions. -/
theorem table_wiring (h : Host) :
    ((g_user_at_cmd_list h).map (fun d => d.cmd_name)).Nodup ∧
    ((g_user_at_cmd_list h).all
      (fun d => d.query_cmd.isSome || d.set_cmd.isSome || d.exec_cmd.isSome)) = true ∧
    (∃ d, find_cmd "+DRY" (g_user_at_cmd_list h) = some d ∧
      d.query_cmd = some at_query_dry ∧ d.set_cmd = some (at_set_dry h) ∧
      d.exec_cmd = some (at_exec_dry h)) ∧
    (∃ d, find_cmd "+WET" (g_user_at_cmd_list h) = some d ∧
      d.query_cmd = some at_query_wet ∧ d.set_cmd = some (at_set_wet h) ∧
      d.exec_cmd = some (at_exec_wet h)) ∧
    (at_query_dry ≠ at_query_wet ∧ at_set_dry h ≠ at_set_wet h ∧
      at_exec_dry h ≠ at_exec_wet h) := by
  have hnames : (["+DRY", "+WET"] : List String).Nodup := by decide
  refine ⟨hnames, rfl, ⟨_, rfl, rfl, rfl, rfl⟩, ⟨_, rfl, rfl, rfl, rfl⟩, ?_, ?_, ?_⟩
  · intro e
    have e2 := congrArg (fun f => (f ⟨⟨0, 0⟩, false, [], []⟩).2.Serial) e
    revert e2
    decide
  · intro e
    have e2 := congrArg (fun f => (f "1".toList ⟨⟨0, 0⟩, false, [], []⟩).2.calib) e
    simp only [at_set_dry_accept h _ "1".toList 1 (by decide) (by decide) (by decide),
      at_set_wet_accept h _ "1".toList 1 (by decide) (by decide) (by decide)] at e2
    revert e2
    decide
  · intro e
    have e2 := congrArg (fun f => (f ⟨⟨0, 0⟩, false, [], []⟩).2.Serial.head?) e
    simp only [at_exec_dry_eq h _ _ _ rfl, at_exec_wet_eq h _ _ _ rfl] at e2
    have e3 : some "Start Dry Calibration\n" = some "Start Wet Calibration\n" := e2
    revert e3
    decide

end UserAt
